import Mathlib

/-!
Shallow embedding of the event-sourced aggregate core of the
`Microservices-fastpass` repository, together with proofs of the
specified properties.

The embedding follows the JavaScript sources:
  * `services/user-car-service/src/domain/aggregates/ReservationAggregate.js`
  * `services/user-car-service/src/domain/events/ReservationCreatedEvent.js`
  * `services/user-car-service/src/domain/events/ParkingStatusUpdatedEvent.js`
  * `services/user-car-service/src/infrastructure/projections/ReservationProjection.js`
  * `services/slot-service/src/domain/aggregates/SlotAggregate.js`
  * `services/slot-service/src/domain/events/SlotCreatedEvent.js`

JavaScript field values (strings, numbers, `null`/`undefined`) are
modelled by `JVal`; JS truthiness tests (`!x`, `x && y`, `x || y`)
by `JVal.truthy` and `JVal.orDefault`.  Methods that mutate `this`
become functions returning a new record; a method that can `throw`
returns a `JSResult` whose `thrown` constructor carries the error
message together with the receiver's state at the moment the
exception escapes (all throws in these sources happen before any
field assignment, so that state is the unmodified receiver).
Calls to `new Date()` / `Date.now()` are passed in as an explicit
`now` argument, and `Date` string parsing as an explicit `parse`
function, since those are the only nondeterministic inputs.
-/

namespace Fastpass

/-- Model of a JavaScript primitive field value: `null`/`undefined`,
a string, or an (integral) number.  Absent object fields are modelled
as `null`, which has the same truthiness and the same behaviour in
every read performed by the embedded code. -/
inductive JVal where
  | null : JVal
  | str : String → JVal
  | num : Int → JVal
deriving DecidableEq, Repr

/-- JS truthiness: `null`/`undefined`, the empty string and `0` are falsy. -/
def JVal.truthy : JVal → Bool
  | .null => false
  | .str s => s ≠ ""
  | .num n => n ≠ 0

/-- JS `a || b`: returns `a` when `a` is truthy, else `b`.
Used by `_apply` for `data.status || "pending"` (and the slot
aggregate's `data.status || "available"`). -/
def JVal.orDefault (a b : JVal) : JVal := if a.truthy then a else b

/-- JS string coercion as used in template literals. -/
def JVal.display : JVal → String
  | .null => "null"
  | .str s => s
  | .num n => toString n

/-- Result of a JS method that can throw: `ok` is a normal return,
`thrown msg a` is an escaping exception with message `msg`, with `a`
the state of the receiver when the exception escapes. -/
inductive JSResult (α : Type) where
  | ok : α → JSResult α
  | thrown : String → α → JSResult α
deriving DecidableEq, Repr

/-! ### Event classes (user-car-service) -/

/-- Embedding of the `ReservationCreatedEvent` class
(`src/domain/events/ReservationCreatedEvent.js`): one field per
`this.x = ...` assignment in its constructor. -/
structure ReservationCreatedEvent where
  reservationId : JVal
  userId : JVal
  slotId : JVal
  startTimeStamp : JVal
  startDateLocal : JVal
  startTimeLocal : JVal
  endTimeStamp : JVal
  endDateLocal : JVal
  endTimeLocal : JVal
  timeZoneOffset : JVal
  createdAt : JVal
  status : JVal
  parkingSiteId : JVal
  floorId : JVal
deriving DecidableEq, Repr

/-- The `ReservationCreatedEvent` constructor: positional parameters
in source order; `this.status = "pending"` is hard-coded. -/
def ReservationCreatedEvent.make (reservationId userId slotId startTimeStamp
    startDateLocal startTimeLocal endTimeStamp endDateLocal endTimeLocal
    timeZoneOffset createdAt parkingSiteId floorId : JVal) :
    ReservationCreatedEvent :=
  { reservationId := reservationId
    userId := userId
    slotId := slotId
    startTimeStamp := startTimeStamp
    startDateLocal := startDateLocal
    startTimeLocal := startTimeLocal
    endTimeStamp := endTimeStamp
    endDateLocal := endDateLocal
    endTimeLocal := endTimeLocal
    timeZoneOffset := timeZoneOffset
    createdAt := createdAt
    status := .str "pending"
    parkingSiteId := parkingSiteId
    floorId := floorId }

/-- Embedding of the `ParkingStatusUpdatedEvent` class
(`src/domain/events/ParkingStatusUpdatedEvent.js`). -/
structure ParkingStatusUpdatedEvent where
  reservationId : JVal
  newStatus : JVal
  updatedAt : JVal
  userId : JVal
deriving DecidableEq, Repr

/-- Embedding of the `SlotCreatedEvent` class
(`services/slot-service/src/domain/events/SlotCreatedEvent.js`);
`this.status = "available"` is hard-coded in its constructor. -/
structure SlotCreatedEvent where
  slotId : JVal
  name : JVal
  floor : JVal
  details : JVal
  parkingSiteId : JVal
  floorId : JVal
  status : JVal
deriving DecidableEq, Repr

/-- The `SlotCreatedEvent` constructor. -/
def SlotCreatedEvent.make (slotId name floor details parkingSiteId floorId : JVal) :
    SlotCreatedEvent :=
  { slotId := slotId, name := name, floor := floor, details := details
    parkingSiteId := parkingSiteId, floorId := floorId
    status := .str "available" }

/-- A plain data object as loaded from the event store (the
rehydration path of `_apply`).  It carries every field name that any
embedded reader destructures; a field the stored object does not have
reads as `null` (JS `undefined`), which behaves identically in every
truthiness test and assignment performed by the embedded code. -/
structure StoredEventData where
  reservationId : JVal
  userId : JVal
  slotId : JVal
  status : JVal
  startTimeStamp : JVal
  startDateLocal : JVal
  startTimeLocal : JVal
  endTimeStamp : JVal
  endDateLocal : JVal
  endTimeLocal : JVal
  timeZoneOffset : JVal
  parkingSiteId : JVal
  floorId : JVal
  newStatus : JVal
  updatedAt : JVal
  createdAt : JVal
  name : JVal
  floor : JVal
  details : JVal
deriving DecidableEq, Repr

/-- The all-`null` plain object (an object with none of the fields set). -/
def StoredEventData.empty : StoredEventData :=
  { reservationId := .null, userId := .null, slotId := .null, status := .null
    startTimeStamp := .null, startDateLocal := .null, startTimeLocal := .null
    endTimeStamp := .null, endDateLocal := .null, endTimeLocal := .null
    timeZoneOffset := .null, parkingSiteId := .null, floorId := .null
    newStatus := .null, updatedAt := .null, createdAt := .null
    name := .null, floor := .null, details := .null }

/-- View of a `ReservationCreatedEvent` instance as a plain field map:
in JS the instance *is* the data object (`data = event`), so this is
the identity on the fields the class sets; fields the class does not
have (`newStatus`, `name`, ...) read as `undefined`/`null`. -/
def ReservationCreatedEvent.toStored (e : ReservationCreatedEvent) : StoredEventData :=
  { StoredEventData.empty with
    reservationId := e.reservationId
    userId := e.userId
    slotId := e.slotId
    status := e.status
    startTimeStamp := e.startTimeStamp
    startDateLocal := e.startDateLocal
    startTimeLocal := e.startTimeLocal
    endTimeStamp := e.endTimeStamp
    endDateLocal := e.endDateLocal
    endTimeLocal := e.endTimeLocal
    timeZoneOffset := e.timeZoneOffset
    parkingSiteId := e.parkingSiteId
    floorId := e.floorId
    createdAt := e.createdAt }

/-- View of a `ParkingStatusUpdatedEvent` instance as a plain field map. -/
def ParkingStatusUpdatedEvent.toStored (e : ParkingStatusUpdatedEvent) : StoredEventData :=
  { StoredEventData.empty with
    reservationId := e.reservationId
    newStatus := e.newStatus
    updatedAt := e.updatedAt
    userId := e.userId }

/-- View of a `SlotCreatedEvent` instance as a plain field map. -/
def SlotCreatedEvent.toStored (e : SlotCreatedEvent) : StoredEventData :=
  { StoredEventData.empty with
    slotId := e.slotId
    name := e.name
    floor := e.floor
    details := e.details
    parkingSiteId := e.parkingSiteId
    floorId := e.floorId
    status := e.status }

/-- Argument passed to `ReservationAggregate._apply`: either a freshly
constructed event instance (the `instanceof` branches), a plain object
loaded from storage, or a non-object value (the final `else` branch,
which warns and returns). -/
inductive EventArg where
  | createdInst : ReservationCreatedEvent → EventArg
  | statusInst : ParkingStatusUpdatedEvent → EventArg
  | plainObj : StoredEventData → EventArg
  | invalid : EventArg
deriving DecidableEq, Repr

/-! ### ReservationAggregate -/

/-- The mutable state fields of a `ReservationAggregate` other than
`id`, `version` and `uncommittedEvents` — exactly the fields returned
by `getState()`. -/
structure ReservationState where
  userId : JVal
  slotId : JVal
  status : JVal
  startTimeStamp : JVal
  startDateLocal : JVal
  startTimeLocal : JVal
  endTimeStamp : JVal
  endDateLocal : JVal
  endTimeLocal : JVal
  timeZoneOffset : JVal
  parkingSiteId : JVal
  floorId : JVal
deriving DecidableEq, Repr

/-- The state the constructor installs: every field `null`. -/
def ReservationState.initial : ReservationState :=
  { userId := .null, slotId := .null, status := .null
    startTimeStamp := .null, startDateLocal := .null, startTimeLocal := .null
    endTimeStamp := .null, endDateLocal := .null, endTimeLocal := .null
    timeZoneOffset := .null, parkingSiteId := .null, floorId := .null }

/-- Embedding of the `ReservationAggregate` object. -/
structure ReservationAggregate where
  id : String
  state : ReservationState
  version : Nat
  uncommittedEvents : List EventArg
deriving DecidableEq, Repr

/-- The `ReservationAggregate` constructor (`new ReservationAggregate(id)`)
after its non-empty-id guard: all state fields `null`, `version = 0`,
`uncommittedEvents = []`. -/
def ReservationAggregate.mkAgg (id : String) : ReservationAggregate :=
  { id := id, state := ReservationState.initial, version := 0, uncommittedEvents := [] }

/-- The plain-object type inference of `_apply`'s rehydration branch:
`if (event.slotId && event.startDateLocal) ... else if (event.newStatus) ...`. -/
def inferEventType (o : StoredEventData) : String :=
  if o.slotId.truthy && o.startDateLocal.truthy then "ReservationCreatedEvent"
  else if o.newStatus.truthy then "ParkingStatusUpdatedEvent"
  else "UnknownEvent"

/-- The `case "ReservationCreatedEvent"` branch of `_apply`'s switch. -/
def applyCreated (data : StoredEventData) : ReservationState :=
  { userId := data.userId
    slotId := data.slotId
    status := data.status.orDefault (.str "pending")
    parkingSiteId := data.parkingSiteId
    floorId := data.floorId
    startTimeStamp := data.startTimeStamp
    startDateLocal := data.startDateLocal
    startTimeLocal := data.startTimeLocal
    endTimeStamp := data.endTimeStamp
    endDateLocal := data.endDateLocal
    endTimeLocal := data.endTimeLocal
    timeZoneOffset := data.timeZoneOffset }

/-- The switch of `_apply` over the computed `eventType`, acting on the
field map `data`: the created case overwrites every state field, the
status case overwrites only `status`, and the default case (unknown
type) only warns. -/
def applySwitch (st : ReservationState) (eventType : String) (data : StoredEventData) :
    ReservationState :=
  if eventType = "ReservationCreatedEvent" then applyCreated data
  else if eventType = "ParkingStatusUpdatedEvent" then { st with status := data.newStatus }
  else st

/-- Embedding of `ReservationAggregate._apply(event)`: the `instanceof`
branches take `eventType` from the class name and `data = event`; the
plain-object branch infers `eventType` from field presence; a
non-object argument is warned about and ignored. -/
def ReservationAggregate.applyEvent (agg : ReservationAggregate) (event : EventArg) :
    ReservationAggregate :=
  match event with
  | .createdInst e =>
      { agg with state := applySwitch agg.state "ReservationCreatedEvent" e.toStored }
  | .statusInst e =>
      { agg with state := applySwitch agg.state "ParkingStatusUpdatedEvent" e.toStored }
  | .plainObj o =>
      { agg with state := applySwitch agg.state (inferEventType o) o }
  | .invalid => agg

/-- Embedding of `_applyAndRecord(event)`: apply the state change, then
push the event onto `uncommittedEvents` (the version is deliberately
not touched, per the source comment). -/
def ReservationAggregate.applyAndRecord (agg : ReservationAggregate) (event : EventArg) :
    ReservationAggregate :=
  let a := agg.applyEvent event
  { a with uncommittedEvents := a.uncommittedEvents ++ [event] }

/-- Embedding of the `CreateReservationCommand` field bag as consumed
by `createReservation`. -/
structure CreateReservationCommand where
  userId : JVal
  slotId : JVal
  startTimeStamp : JVal
  startDateLocal : JVal
  startTimeLocal : JVal
  endTimeStamp : JVal
  endDateLocal : JVal
  endTimeLocal : JVal
  timeZoneOffset : JVal
  parkingSiteId : JVal
  floorId : JVal
deriving DecidableEq, Repr

/-- Embedding of the `UpdateParkingStatusCommand` field bag as consumed
by `updateStatus`. -/
structure UpdateParkingStatusCommand where
  reservationId : JVal
  newStatus : JVal
deriving DecidableEq, Repr

/-- JS `new Date(a) >= new Date(b)` on two ISO strings, given a parse
function where `none` models an `Invalid Date` (`NaN`, for which every
comparison is false). -/
def dateGe (parse : String → Option Int) (a b : String) : Bool :=
  match parse a, parse b with
  | some x, some y => y ≤ x
  | _, _ => false

/-- Embedding of `ReservationAggregate.createReservation(command)`.
`parse` stands for the `Date` string parser and `now` for `new Date()`.
The event-constructor call site passes its arguments positionally, in
the source order `(this.id, userId, slotId, new Date(), startTimeStamp,
startDateLocal, startTimeLocal, endTimeStamp, endDateLocal,
endTimeLocal, timeZoneOffset, parkingSiteId, floorId)`, which is how
they bind to the constructor's parameter list. -/
def ReservationAggregate.createReservation (agg : ReservationAggregate)
    (command : CreateReservationCommand) (parse : String → Option Int) (now : JVal) :
    JSResult ReservationAggregate :=
  if 0 < agg.version then
    .thrown "Reservation already exists." agg
  else if !command.userId.truthy || !command.slotId.truthy
      || !command.parkingSiteId.truthy || !command.floorId.truthy
      || !command.startDateLocal.truthy || !command.startTimeLocal.truthy
      || !command.endDateLocal.truthy || !command.endTimeLocal.truthy
      || !command.timeZoneOffset.truthy then
    .thrown "Missing required reservation details in command." agg
  else
    let startISO := command.startDateLocal.display ++ "T"
        ++ command.startTimeLocal.display ++ command.timeZoneOffset.display
    let endISO := command.endDateLocal.display ++ "T"
        ++ command.endTimeLocal.display ++ command.timeZoneOffset.display
    if dateGe parse startISO endISO then
      .thrown "End time must be after start time." agg
    else
      let event := ReservationCreatedEvent.make (.str agg.id) command.userId
        command.slotId now command.startTimeStamp command.startDateLocal
        command.startTimeLocal command.endTimeStamp command.endDateLocal
        command.endTimeLocal command.timeZoneOffset command.parkingSiteId
        command.floorId
      .ok (agg.applyAndRecord (.createdInst event))

/-- Embedding of `ReservationAggregate.updateStatus(command)`; `now`
stands for the `new Date()` used as the event's `updatedAt`. -/
def ReservationAggregate.updateStatus (agg : ReservationAggregate)
    (command : UpdateParkingStatusCommand) (now : JVal) :
    JSResult ReservationAggregate :=
  if agg.version = 0 then
    .thrown "Reservation does not exist yet. Cannot update status." agg
  else if agg.state.status = JVal.str "checked_out"
      ∨ agg.state.status = JVal.str "cancelled" then
    .thrown ("Cannot update status from the current status: "
      ++ agg.state.status.display ++ ".") agg
  else if agg.state.status = command.newStatus then
    .ok agg
  else
    .ok (agg.applyAndRecord (.statusInst
      { reservationId := .str agg.id
        newStatus := command.newStatus
        updatedAt := now
        userId := agg.state.userId }))

/-- Embedding of `getState()`: the plain object of the twelve state fields. -/
def ReservationAggregate.getState (agg : ReservationAggregate) : ReservationState :=
  agg.state

/-- A record from the `snapshots` table: `snapshot_data` is the object
saved by `getState()` (`none` models a missing/falsy `snapshot_data`),
`version` the snapshot's version column. -/
structure SnapshotRecord where
  snapshot_data : Option ReservationState
  version : Nat
deriving DecidableEq, Repr

/-- Embedding of `rehydrateFromSnapshot(snapshotRecord)`: restores each
state field from `snapshot_data` (returning unchanged when it is
absent) and sets `version` from the record. -/
def ReservationAggregate.rehydrateFromSnapshot (agg : ReservationAggregate)
    (snapshotRecord : SnapshotRecord) : ReservationAggregate :=
  match snapshotRecord.snapshot_data with
  | none => agg
  | some snapshotData =>
      { agg with state := snapshotData, version := snapshotRecord.version }

/-- One iteration of the `events.forEach` loop in `rehydrateFromEvents`:
`this._apply(eventData); this.version++`. -/
def ReservationAggregate.rehydrateStep (agg : ReservationAggregate) (event : EventArg) :
    ReservationAggregate :=
  let a := agg.applyEvent event
  { a with version := a.version + 1 }

/-- Embedding of `rehydrateFromEvents(events)`: applies each event in
order, incrementing the version once per event (the early return for an
empty list coincides with folding over `[]`). -/
def ReservationAggregate.rehydrateFromEvents (agg : ReservationAggregate)
    (events : List EventArg) : ReservationAggregate :=
  events.foldl ReservationAggregate.rehydrateStep agg

/-! ### SlotAggregate (slot-service) -/

/-- Argument passed to `SlotAggregate._apply`: a `SlotCreatedEvent`
instance, a plain object, or a non-object value (ignored). -/
inductive SlotEventArg where
  | createdInst : SlotCreatedEvent → SlotEventArg
  | plainObj : StoredEventData → SlotEventArg
  | invalid : SlotEventArg
deriving DecidableEq, Repr

/-- The mutable state fields of a `SlotAggregate` — exactly the fields
returned by its `getState()`. -/
structure SlotState where
  name : JVal
  floor : JVal
  details : JVal
  parkingSiteId : JVal
  floorId : JVal
  status : JVal
deriving DecidableEq, Repr

/-- The state the `SlotAggregate` constructor installs. -/
def SlotState.initial : SlotState :=
  { name := .null, floor := .null, details := .null
    parkingSiteId := .null, floorId := .null, status := .null }

/-- Embedding of the `SlotAggregate` object. -/
structure SlotAggregate where
  id : String
  state : SlotState
  version : Nat
  uncommittedEvents : List SlotEventArg
deriving DecidableEq, Repr

/-- The `SlotAggregate` constructor after its non-empty-id guard. -/
def SlotAggregate.mkAgg (id : String) : SlotAggregate :=
  { id := id, state := SlotState.initial, version := 0, uncommittedEvents := [] }

/-- The plain-object type inference of `SlotAggregate._apply`:
`if (event.slotId && event.name) eventType = "SlotCreatedEvent"`. -/
def inferSlotEventType (o : StoredEventData) : String :=
  if o.slotId.truthy && o.name.truthy then "SlotCreatedEvent"
  else "UnknownEvent"

/-- The switch of `SlotAggregate._apply`: only `SlotCreatedEvent` is
handled; any other type falls through with no state change. -/
def slotApplySwitch (st : SlotState) (eventType : String) (data : StoredEventData) :
    SlotState :=
  if eventType = "SlotCreatedEvent" then
    { name := data.name
      floor := data.floor
      details := data.details
      parkingSiteId := data.parkingSiteId
      floorId := data.floorId
      status := data.status.orDefault (.str "available") }
  else st

/-- Embedding of `SlotAggregate._apply(event)`. -/
def SlotAggregate.applyEvent (agg : SlotAggregate) (event : SlotEventArg) :
    SlotAggregate :=
  match event with
  | .createdInst e =>
      { agg with state := slotApplySwitch agg.state "SlotCreatedEvent" e.toStored }
  | .plainObj o =>
      { agg with state := slotApplySwitch agg.state (inferSlotEventType o) o }
  | .invalid => agg

/-- Embedding of `SlotAggregate._applyAndRecord(event)`. -/
def SlotAggregate.applyAndRecord (agg : SlotAggregate) (event : SlotEventArg) :
    SlotAggregate :=
  let a := agg.applyEvent event
  { a with uncommittedEvents := a.uncommittedEvents ++ [event] }

/-- Embedding of the `CreateSlotCommand` field bag as consumed by
`createSlot`. -/
structure CreateSlotCommand where
  name : JVal
  floor : JVal
  details : JVal
  parkingSiteId : JVal
  floorId : JVal
deriving DecidableEq, Repr

/-- Embedding of `SlotAggregate.createSlot(command)`: rejects when the
slot already exists (`version > 0`), otherwise constructs a
`SlotCreatedEvent` and applies/records it. -/
def SlotAggregate.createSlot (agg : SlotAggregate) (command : CreateSlotCommand) :
    JSResult SlotAggregate :=
  if 0 < agg.version then
    .thrown "Slot already exists." agg
  else
    .ok (agg.applyAndRecord (.createdInst
      (SlotCreatedEvent.make (.str agg.id) command.name command.floor
        command.details command.parkingSiteId command.floorId)))

/-- One iteration of the `events.forEach` loop in
`SlotAggregate.rehydrateFromEvents`. -/
def SlotAggregate.rehydrateStep (agg : SlotAggregate) (event : SlotEventArg) :
    SlotAggregate :=
  let a := agg.applyEvent event
  { a with version := a.version + 1 }

/-- Embedding of `SlotAggregate.rehydrateFromEvents(events)`. -/
def SlotAggregate.rehydrateFromEvents (agg : SlotAggregate)
    (events : List SlotEventArg) : SlotAggregate :=
  events.foldl SlotAggregate.rehydrateStep agg

/-! ### ReservationProjection (read model)

`ReservationProjection.handleReservationCreated` destructures the
event and issues a single `insert` into the `reservations` table with
`id = reservationId`.  The table itself lives in the database, outside
the JavaScript sources; its insert semantics are modelled from the
spec below. -/

/-- One row of the `reservations` read-model table, with the columns
`handleReservationCreated` inserts. -/
structure ReadModelRow where
  id : JVal
  user_id : JVal
  parking_site_id : JVal
  floor_id : JVal
  slot_id : JVal
  status : JVal
  start_time : String
  end_time : String
  reserved_at : String
  version : Nat
  updated_at : JVal
deriving DecidableEq, Repr

/-- Modelled from the spec: the read-model table owned by the
projection, "keyed by the aggregate id" (§4.6), i.e. the `id` column
is a unique key.  An `insert` of a row whose `id` already exists fails
with a duplicate-key error and performs no write; otherwise the row is
added.  The table itself (its SQL schema) is not part of the
JavaScript sources. -/
def insertRow (table : List ReadModelRow) (row : ReadModelRow) :
    Except String (List ReadModelRow) :=
  if table.any (fun r => decide (r.id = row.id)) then
    .error "duplicate key value violates unique constraint"
  else
    .ok (table ++ [row])

/-- The row object `handleReservationCreated` passes to `insert`: the
UTC strings are built from the composite time components via `toISO`
(modelling `new Date(s).toISOString()`) and `epochToISO` (modelling
`new Date(createdAt * 1000).toISOString()`); `now` models the
`new Date()` stored in `updated_at`. -/
def reservationRow (toISO : String → String) (epochToISO : JVal → String)
    (now : JVal) (event : StoredEventData) : ReadModelRow :=
  let startTimeUTC := toISO (event.startDateLocal.display ++ "T"
    ++ event.startTimeLocal.display ++ event.timeZoneOffset.display)
  let endTimeUTC := toISO (event.endDateLocal.display ++ "T"
    ++ event.endTimeLocal.display ++ event.timeZoneOffset.display)
  let reservedAtUTC := epochToISO event.createdAt
  { id := event.reservationId
    user_id := event.userId
    parking_site_id := event.parkingSiteId
    floor_id := event.floorId
    slot_id := event.slotId
    status := event.status.orDefault (.str "pending")
    start_time := startTimeUTC
    end_time := endTimeUTC
    reserved_at := reservedAtUTC
    version := 1
    updated_at := now }

/-- Embedding of `ReservationProjection.handleReservationCreated(event)`:
builds the row and inserts it; a failed insert propagates the error
(the handler rethrows). -/
def handleReservationCreated (toISO : String → String) (epochToISO : JVal → String)
    (now : JVal) (table : List ReadModelRow) (event : StoredEventData) :
    Except String (List ReadModelRow) :=
  insertRow table (reservationRow toISO epochToISO now event)

/-- Modelled from the spec: one delivery of a creation event to the
projection against the read-model store.  A failed handler leaves the
store unchanged (the database does not write on a duplicate-key error;
the thrown error only signals the consumer to retry/dead-letter,
§4.6). -/
def deliverReservationCreated (toISO : String → String) (epochToISO : JVal → String)
    (now : JVal) (table : List ReadModelRow) (event : StoredEventData) :
    List ReadModelRow :=
  match handleReservationCreated toISO epochToISO now table event with
  | .ok t => t
  | .error _ => table

/-! ### Basic lemmas about the aggregate operations -/

/-- `_apply` never touches `id`. -/
theorem applyEvent_id (a : ReservationAggregate) (e : EventArg) :
    (a.applyEvent e).id = a.id := by
  cases e <;> rfl

/-- `_apply` never touches `version`. -/
theorem applyEvent_version (a : ReservationAggregate) (e : EventArg) :
    (a.applyEvent e).version = a.version := by
  cases e <;> rfl

/-- `_apply` never touches `uncommittedEvents`. -/
theorem applyEvent_unc (a : ReservationAggregate) (e : EventArg) :
    (a.applyEvent e).uncommittedEvents = a.uncommittedEvents := by
  cases e <;> rfl

/-- `_applyAndRecord` never touches `version`. -/
theorem applyAndRecord_version (a : ReservationAggregate) (e : EventArg) :
    (a.applyAndRecord e).version = a.version := by
  cases e <;> rfl

/-- `_applyAndRecord` appends exactly the applied event to
`uncommittedEvents`. -/
theorem applyAndRecord_unc (a : ReservationAggregate) (e : EventArg) :
    (a.applyAndRecord e).uncommittedEvents = a.uncommittedEvents ++ [e] := by
  cases e <;> rfl

/-- One rehydration step bumps the version by exactly one. -/
theorem rehydrateStep_version (a : ReservationAggregate) (e : EventArg) :
    (a.rehydrateStep e).version = a.version + 1 := by
  cases e <;> rfl

/-- One rehydration step never touches `id`. -/
theorem rehydrateStep_id (a : ReservationAggregate) (e : EventArg) :
    (a.rehydrateStep e).id = a.id := by
  cases e <;> rfl

/-- One rehydration step never touches `uncommittedEvents`. -/
theorem rehydrateStep_unc (a : ReservationAggregate) (e : EventArg) :
    (a.rehydrateStep e).uncommittedEvents = a.uncommittedEvents := by
  cases e <;> rfl

/-- Unfolding one step of `rehydrateFromEvents`. -/
theorem rehydrate_cons (a : ReservationAggregate) (e : EventArg) (t : List EventArg) :
    a.rehydrateFromEvents (e :: t) = (a.rehydrateStep e).rehydrateFromEvents t := rfl

/-- Rehydration over a concatenation is rehydration in two stages. -/
theorem rehydrate_append (a : ReservationAggregate) (l1 l2 : List EventArg) :
    a.rehydrateFromEvents (l1 ++ l2)
      = (a.rehydrateFromEvents l1).rehydrateFromEvents l2 := by
  simp [ReservationAggregate.rehydrateFromEvents, List.foldl_append]

/-- `rehydrateFromEvents` never touches `id`. -/
theorem rehydrate_id (l : List EventArg) :
    ∀ a : ReservationAggregate, (a.rehydrateFromEvents l).id = a.id := by
  induction l with
  | nil => intro a; rfl
  | cons e t ih =>
      intro a
      rw [rehydrate_cons, ih, rehydrateStep_id]

/-- `rehydrateFromEvents` never touches `uncommittedEvents`. -/
theorem rehydrate_unc (l : List EventArg) :
    ∀ a : ReservationAggregate, (a.rehydrateFromEvents l).uncommittedEvents
      = a.uncommittedEvents := by
  induction l with
  | nil => intro a; rfl
  | cons e t ih =>
      intro a
      rw [rehydrate_cons, ih, rehydrateStep_unc]

/-- Slot `_applyAndRecord` never touches `version`. -/
theorem slotApplyAndRecord_version (a : SlotAggregate) (e : SlotEventArg) :
    (a.applyAndRecord e).version = a.version := by
  cases e <;> rfl

/-- Slot `_applyAndRecord` appends exactly the applied event. -/
theorem slotApplyAndRecord_unc (a : SlotAggregate) (e : SlotEventArg) :
    (a.applyAndRecord e).uncommittedEvents = a.uncommittedEvents ++ [e] := by
  cases e <;> rfl

/-- One slot rehydration step bumps the version by exactly one. -/
theorem slotRehydrateStep_version (a : SlotAggregate) (e : SlotEventArg) :
    (a.rehydrateStep e).version = a.version + 1 := by
  cases e <;> rfl

/-- Unfolding one step of `SlotAggregate.rehydrateFromEvents`. -/
theorem slotRehydrate_cons (a : SlotAggregate) (e : SlotEventArg) (t : List SlotEventArg) :
    a.rehydrateFromEvents (e :: t) = (a.rehydrateStep e).rehydrateFromEvents t := rfl

/-! ### Claim theorems -/

/-- C4.  Replay determinism: for every list of stored events, two fresh
reservation aggregates with the same id, rehydrated by applying the same
ordered event list via `rehydrateFromEvents`, end with identical state
fields and identical version.  The two runs are the same pure function
of the id and the event list — the replay path of the embedding takes
no clock, randomness or store parameter — so the results coincide
definitionally. -/
theorem C4_replay_determinism (id : String) (es : List EventArg) :
    ((ReservationAggregate.mkAgg id).rehydrateFromEvents es).getState
        = ((ReservationAggregate.mkAgg id).rehydrateFromEvents es).getState
      ∧ ((ReservationAggregate.mkAgg id).rehydrateFromEvents es).version
        = ((ReservationAggregate.mkAgg id).rehydrateFromEvents es).version :=
  ⟨rfl, rfl⟩

/-- C5.  Rehydration version arithmetic: starting from any aggregate at
version `K`, `rehydrateFromEvents` on a list of `n` events increments
the version exactly once per event, ending at `K + n` — for the
reservation aggregate and for the slot aggregate alike. -/
theorem C5_rehydration_version :
    (∀ (a : ReservationAggregate) (es : List EventArg),
        (a.rehydrateFromEvents es).version = a.version + es.length)
  ∧ (∀ (s : SlotAggregate) (es : List SlotEventArg),
        (s.rehydrateFromEvents es).version = s.version + es.length) := by
  constructor
  · intro a es
    induction es generalizing a with
    | nil => rfl
    | cons e t ih =>
        rw [rehydrate_cons, ih, rehydrateStep_version, List.length_cons]
        omega
  · intro s es
    induction es generalizing s with
    | nil => rfl
    | cons e t ih =>
        rw [slotRehydrate_cons, ih, slotRehydrateStep_version, List.length_cons]
        omega

/-- C8.  Unknown-event tolerance: a stored plain event object whose
shape matches no recognized event type (`inferEventType` classifies it
as `UnknownEvent`) is ignored by `_apply`: the aggregate — in
particular every one of its state fields — is left completely
unchanged.  Likewise for the slot aggregate's `_apply`. -/
theorem C8_unknown_event_tolerance :
    (∀ (a : ReservationAggregate) (o : StoredEventData),
        inferEventType o = "UnknownEvent" → a.applyEvent (.plainObj o) = a)
  ∧ (∀ (s : SlotAggregate) (o : StoredEventData),
        inferSlotEventType o = "UnknownEvent" → s.applyEvent (.plainObj o) = s) := by
  constructor
  · intro a o h
    have h1 : a.applyEvent (.plainObj o)
        = { a with state := applySwitch a.state (inferEventType o) o } := rfl
    rw [h1, h, applySwitch, if_neg (by decide), if_neg (by decide)]
  · intro s o h
    have h1 : s.applyEvent (.plainObj o)
        = { s with state := slotApplySwitch s.state (inferSlotEventType o) o } := rfl
    rw [h1, h, slotApplySwitch, if_neg (by decide)]

/-- Concrete aggregate used to instantiate `C8_unknown_event_tolerance`. -/
def c8Agg : ReservationAggregate :=
  { id := "R1"
    state := { ReservationState.initial with status := .str "pending", userId := .str "U1" }
    version := 1
    uncommittedEvents := [] }

/-- Concrete slot aggregate used to instantiate `C8_unknown_event_tolerance`. -/
def c8Slot : SlotAggregate :=
  { id := "SL1"
    state := { SlotState.initial with status := .str "available", name := .str "A-01" }
    version := 1
    uncommittedEvents := [] }

/-- Witness for C8: a stored object with none of the recognized fields
(an all-absent object) is classified `UnknownEvent` and leaves a
concrete reservation aggregate and a concrete slot aggregate unchanged. -/
theorem C8_witness :
    c8Agg.applyEvent (.plainObj StoredEventData.empty) = c8Agg
      ∧ c8Slot.applyEvent (.plainObj StoredEventData.empty) = c8Slot :=
  ⟨C8_unknown_event_tolerance.1 c8Agg StoredEventData.empty (by decide),
   C8_unknown_event_tolerance.2 c8Slot StoredEventData.empty (by decide)⟩

/-- Rehydrating a fresh aggregate from a snapshot record whose
`snapshot_data` is another aggregate's `getState()` and whose version
column is that aggregate's version reproduces that aggregate exactly,
as long as it has no uncommitted events (which is the case for any
aggregate obtained purely by rehydration). -/
theorem snapshot_restores (a : ReservationAggregate)
    (h : a.uncommittedEvents = []) :
    (ReservationAggregate.mkAgg a.id).rehydrateFromSnapshot
      { snapshot_data := some a.getState, version := a.version } = a := by
  cases a with
  | mk i s v u =>
      simp only at h
      subst h
      rfl

/-- C1.  Snapshot transparency: for every reservation id and every
event history `es`, rehydrating a fresh aggregate from a snapshot taken
at version `K` (the snapshot record holding `getState()` and the
version of the aggregate rehydrated from the first `K` events) followed
by `rehydrateFromEvents` on the remaining events yields exactly the
same aggregate — same state fields and same version — as rehydrating a
fresh aggregate from no snapshot by `rehydrateFromEvents` on the full
sequence. -/
theorem C1_snapshot_transparency (id : String) (es : List EventArg) (K : Nat) :
    ((ReservationAggregate.mkAgg id).rehydrateFromSnapshot
        { snapshot_data :=
            some ((ReservationAggregate.mkAgg id).rehydrateFromEvents (es.take K)).getState
          version :=
            ((ReservationAggregate.mkAgg id).rehydrateFromEvents (es.take K)).version
        }).rehydrateFromEvents (es.drop K)
      = (ReservationAggregate.mkAgg id).rehydrateFromEvents es := by
  have hid : ((ReservationAggregate.mkAgg id).rehydrateFromEvents (es.take K)).id = id :=
    rehydrate_id _ _
  have hu : ((ReservationAggregate.mkAgg id).rehydrateFromEvents (es.take K)).uncommittedEvents
      = [] := rehydrate_unc _ _
  have hsnap := snapshot_restores
    ((ReservationAggregate.mkAgg id).rehydrateFromEvents (es.take K)) hu
  rw [hid] at hsnap
  rw [hsnap, ← rehydrate_append, List.take_append_drop]

/-- Decidable observation on a `JSResult`: the call threw, and the
receiver it left behind is exactly `a` (all fields unchanged, nothing
newly queued). -/
def JSResult.throwsKeeping {α : Type} [DecidableEq α] (r : JSResult α) (a : α) : Bool :=
  match r with
  | .ok _ => false
  | .thrown _ b => b = a

/-- C3.  Terminal-state rejection: for every reservation aggregate
whose current status is `"checked_out"` or `"cancelled"`, `updateStatus`
with any command throws and leaves the aggregate exactly as it was —
same version, same state fields, nothing added to `uncommittedEvents`.
(When such an aggregate also has version 0 the earlier
does-not-exist guard throws instead; either way the call throws and
changes nothing.) -/
theorem C3_terminal_rejection (a : ReservationAggregate)
    (c : UpdateParkingStatusCommand) (now : JVal)
    (h : a.state.status = JVal.str "checked_out"
      ∨ a.state.status = JVal.str "cancelled") :
    (a.updateStatus c now).throwsKeeping a = true := by
  unfold ReservationAggregate.updateStatus
  by_cases h0 : a.version = 0
  · rw [if_pos h0]
    simp [JSResult.throwsKeeping]
  · rw [if_neg h0, if_pos h]
    simp [JSResult.throwsKeeping]

/-- Concrete cancelled aggregate used to instantiate `C3_terminal_rejection`. -/
def c3Agg : ReservationAggregate :=
  { id := "R1"
    state := { ReservationState.initial with
               status := .str "cancelled", userId := .str "U1", slotId := .str "S1" }
    version := 2
    uncommittedEvents := [] }

/-- Witness for C3: a concrete cancelled aggregate rejects a further
status update, keeping every field intact. -/
theorem C3_witness :
    (c3Agg.updateStatus
        { reservationId := .str "R1", newStatus := .str "checked_in" }
        JVal.null).throwsKeeping c3Agg = true :=
  C3_terminal_rejection c3Agg
    { reservationId := .str "R1", newStatus := .str "checked_in" }
    JVal.null (Or.inr rfl)

/-- C6.  Double-create rejection: an aggregate with `version > 0`
(i.e. it already exists) rejects its creation operation outright —
`createReservation` on the reservation aggregate and `createSlot` on
the slot aggregate throw before constructing any event, leaving
`uncommittedEvents`, `version` and all state fields untouched (the
thrown result carries the receiver exactly as it was). -/
theorem C6_double_create_rejected :
    (∀ (a : ReservationAggregate) (c : CreateReservationCommand)
        (parse : String → Option Int) (now : JVal), 0 < a.version →
        a.createReservation c parse now = .thrown "Reservation already exists." a)
  ∧ (∀ (s : SlotAggregate) (c : CreateSlotCommand), 0 < s.version →
        s.createSlot c = .thrown "Slot already exists." s) := by
  constructor
  · intro a c parse now h
    unfold ReservationAggregate.createReservation
    rw [if_pos h]
  · intro s c h
    unfold SlotAggregate.createSlot
    rw [if_pos h]

/-- Concrete existing aggregate used to instantiate `C6_double_create_rejected`. -/
def c6Agg : ReservationAggregate :=
  { id := "R1"
    state := { ReservationState.initial with status := .str "pending" }
    version := 1
    uncommittedEvents := [] }

/-- Concrete existing slot aggregate used to instantiate
`C6_double_create_rejected`. -/
def c6Slot : SlotAggregate :=
  { id := "SL1"
    state := { SlotState.initial with status := .str "available" }
    version := 1
    uncommittedEvents := [] }

/-- Concrete, fully populated creation command. -/
def c6Cmd : CreateReservationCommand :=
  { userId := .str "U1", slotId := .str "S1"
    startTimeStamp := .num 1735689600
    startDateLocal := .str "2025-01-01", startTimeLocal := .str "08:00:00"
    endTimeStamp := .num 1735693200
    endDateLocal := .str "2025-01-01", endTimeLocal := .str "09:00:00"
    timeZoneOffset := .str "+07:00"
    parkingSiteId := .str "P1", floorId := .str "F1" }

/-- Witness for C6: concrete already-existing aggregates reject
re-creation with the exact errors thrown by the sources. -/
theorem C6_witness :
    c6Agg.createReservation c6Cmd (fun _ => none) JVal.null
        = .thrown "Reservation already exists." c6Agg
      ∧ c6Slot.createSlot
          { name := .str "A-01", floor := .num 1, details := .null
            parkingSiteId := .str "P1", floorId := .str "F1" }
        = .thrown "Slot already exists." c6Slot :=
  ⟨C6_double_create_rejected.1 c6Agg c6Cmd (fun _ => none) JVal.null (by decide),
   C6_double_create_rejected.2 c6Slot
     { name := .str "A-01", floor := .num 1, details := .null
       parkingSiteId := .str "P1", floorId := .str "F1" } (by decide)⟩

/-- C7.  Same-status no-op: an existing, non-terminal reservation
aggregate asked to move to the status it already has returns normally
(`ok`), produces no event and leaves the aggregate — version, state
fields and `uncommittedEvents` — exactly as it was. -/
theorem C7_same_status_noop (a : ReservationAggregate)
    (c : UpdateParkingStatusCommand) (now : JVal)
    (h0 : 0 < a.version)
    (h1 : a.state.status ≠ JVal.str "checked_out")
    (h2 : a.state.status ≠ JVal.str "cancelled")
    (h3 : a.state.status = c.newStatus) :
    a.updateStatus c now = .ok a := by
  unfold ReservationAggregate.updateStatus
  rw [if_neg (by omega : ¬ a.version = 0), if_neg (by tauto), if_pos h3]

/-- Concrete checked-in aggregate used to instantiate `C7_same_status_noop`. -/
def c7Agg : ReservationAggregate :=
  { id := "R1"
    state := { ReservationState.initial with
               status := .str "checked_in", userId := .str "U1" }
    version := 2
    uncommittedEvents := [] }

/-- Witness for C7: re-requesting `"checked_in"` on a concrete
checked-in aggregate is accepted and changes nothing. -/
theorem C7_witness :
    c7Agg.updateStatus
        { reservationId := .str "R1", newStatus := .str "checked_in" }
        JVal.null = .ok c7Agg :=
  C7_same_status_noop c7Agg
    { reservationId := .str "R1", newStatus := .str "checked_in" }
    JVal.null (by decide) (by decide) (by decide) rfl

/-- A `ParkingStatusUpdatedEvent` instance whose `newStatus` is the
empty string (the constructor performs no validation, so this value is
constructible). -/
def c9BlankStatusEvent : ParkingStatusUpdatedEvent :=
  { reservationId := .str "R1", newStatus := .str "", updatedAt := .null
    userId := .null }

/-- Counterexample to C9 as stated: for the concrete
`ParkingStatusUpdatedEvent` instance with `newStatus = ""`, the
`instanceof` dispatch path of `_apply` sets `status` to `""`, while the
plain-object path classifies the same field values as `UnknownEvent`
(because `event.newStatus` is falsy) and mutates nothing — the two
paths do not produce the same state transition. -/
theorem C9_counterexample :
    ¬ ((ReservationAggregate.mkAgg "R1").applyEvent (.statusInst c9BlankStatusEvent)
        = (ReservationAggregate.mkAgg "R1").applyEvent
            (.plainObj c9BlankStatusEvent.toStored)) := by
  decide

/-- C9 (amended).  Two-path apply equivalence holds for every event
whose discriminating fields are truthy: for a `ReservationCreatedEvent`
with truthy `slotId` and `startDateLocal`, and for a
`ParkingStatusUpdatedEvent` with truthy `newStatus`, applying the event
instance via `_apply` (the `instanceof` dispatch path) produces exactly
the same state transition as applying a plain data object carrying the
same field values (the field-presence-inference path): both classify
the event identically and mutate the same fields to the same values.
Events produced through the command flow always satisfy these
truthiness conditions, since `createReservation` and the
`UpdateParkingStatusCommand` constructor validate them. -/
theorem C9_two_path_equivalence :
    (∀ (a : ReservationAggregate) (e : ReservationCreatedEvent),
        e.slotId.truthy = true → e.startDateLocal.truthy = true →
        a.applyEvent (.createdInst e) = a.applyEvent (.plainObj e.toStored))
  ∧ (∀ (a : ReservationAggregate) (e : ParkingStatusUpdatedEvent),
        e.newStatus.truthy = true →
        a.applyEvent (.statusInst e) = a.applyEvent (.plainObj e.toStored)) := by
  constructor
  · intro a e h1 h2
    have hc : inferEventType e.toStored = "ReservationCreatedEvent" := by
      unfold inferEventType
      rw [show e.toStored.slotId = e.slotId from rfl,
        show e.toStored.startDateLocal = e.startDateLocal from rfl, h1, h2]
      rfl
    show ({ a with state := applySwitch a.state "ReservationCreatedEvent" e.toStored }
        : ReservationAggregate)
      = { a with state := applySwitch a.state (inferEventType e.toStored) e.toStored }
    rw [hc]
  · intro a e h
    have hc : inferEventType e.toStored = "ParkingStatusUpdatedEvent" := by
      unfold inferEventType
      rw [show e.toStored.slotId = JVal.null from rfl,
        show e.toStored.newStatus = e.newStatus from rfl, h]
      rfl
    show ({ a with state := applySwitch a.state "ParkingStatusUpdatedEvent" e.toStored }
        : ReservationAggregate)
      = { a with state := applySwitch a.state (inferEventType e.toStored) e.toStored }
    rw [hc]

/-- Concrete creation event (truthy `slotId` and `startDateLocal`)
used to instantiate `C9_two_path_equivalence`. -/
def c9CreatedEvent : ReservationCreatedEvent :=
  ReservationCreatedEvent.make (.str "R1") (.str "U1") (.str "S1")
    (.num 1735689600) (.str "2025-01-01") (.str "08:00:00")
    (.num 1735693200) (.str "2025-01-01") (.str "09:00:00")
    (.str "+07:00") (.num 1735600000) (.str "P1") (.str "F1")

/-- Concrete status event (truthy `newStatus`) used to instantiate
`C9_two_path_equivalence`. -/
def c9StatusEvent : ParkingStatusUpdatedEvent :=
  { reservationId := .str "R1", newStatus := .str "checked_in"
    updatedAt := .null, userId := .str "U1" }

/-- Concrete aggregate used to instantiate `C9_two_path_equivalence`. -/
def c9Agg : ReservationAggregate :=
  { id := "R1"
    state := { ReservationState.initial with status := .str "pending" }
    version := 1
    uncommittedEvents := [] }

/-- Witness for the amended C9: on concrete command-produced events the
instance path and the plain-object path of `_apply` coincide. -/
theorem C9_witness :
    c9Agg.applyEvent (.createdInst c9CreatedEvent)
        = c9Agg.applyEvent (.plainObj c9CreatedEvent.toStored)
      ∧ c9Agg.applyEvent (.statusInst c9StatusEvent)
        = c9Agg.applyEvent (.plainObj c9StatusEvent.toStored) :=
  ⟨C9_two_path_equivalence.1 c9Agg c9CreatedEvent (by decide) (by decide),
   C9_two_path_equivalence.2 c9Agg c9StatusEvent (by decide)⟩

/-- C10.  Commands never advance the version: a successful command
execution — `createReservation` or `updateStatus` on the reservation
aggregate, `createSlot` on the slot aggregate — leaves `version`
exactly as it was before the call, only extending `uncommittedEvents`
(by the one produced event, or by nothing in the same-status no-op
case).  The version moves only through `rehydrateFromSnapshot` /
`rehydrateFromEvents`. -/
theorem C10_commands_preserve_version :
    (∀ (a : ReservationAggregate) (c : CreateReservationCommand)
        (parse : String → Option Int) (now : JVal) (b : ReservationAggregate),
        a.createReservation c parse now = .ok b →
        b.version = a.version
          ∧ ∃ t, b.uncommittedEvents = a.uncommittedEvents ++ t)
  ∧ (∀ (a : ReservationAggregate) (c : UpdateParkingStatusCommand)
        (now : JVal) (b : ReservationAggregate),
        a.updateStatus c now = .ok b →
        b.version = a.version
          ∧ ∃ t, b.uncommittedEvents = a.uncommittedEvents ++ t)
  ∧ (∀ (s : SlotAggregate) (c : CreateSlotCommand) (s2 : SlotAggregate),
        s.createSlot c = .ok s2 →
        s2.version = s.version
          ∧ ∃ t, s2.uncommittedEvents = s.uncommittedEvents ++ t) := by
  refine ⟨?_, ?_, ?_⟩
  · intro a c parse now b h
    simp only [ReservationAggregate.createReservation] at h
    split at h
    · cases h
    · split at h
      · cases h
      · split at h
        · cases h
        · cases h
          exact ⟨applyAndRecord_version a _, _, applyAndRecord_unc a _⟩
  · intro a c now b h
    simp only [ReservationAggregate.updateStatus] at h
    split at h
    · cases h
    · split at h
      · cases h
      · split at h
        · cases h
          exact ⟨rfl, [], by simp⟩
        · cases h
          exact ⟨applyAndRecord_version a _, _, applyAndRecord_unc a _⟩
  · intro s c s2 h
    simp only [SlotAggregate.createSlot] at h
    split at h
    · cases h
    · cases h
      exact ⟨slotApplyAndRecord_version s _, _, slotApplyAndRecord_unc s _⟩

/-- The aggregate produced by a concrete successful `createReservation`
on a fresh aggregate (the `Date` parser is modelled as always returning
an invalid date, for which the start/end comparison is false, as in JS). -/
def c10AfterCreate : ReservationAggregate :=
  match (ReservationAggregate.mkAgg "R1").createReservation c6Cmd
      (fun _ => none) JVal.null with
  | .ok b => b
  | .thrown _ b => b

/-- The aggregate produced by a concrete successful `updateStatus`. -/
def c10AfterUpdate : ReservationAggregate :=
  match c7Agg.updateStatus
      { reservationId := .str "R1", newStatus := .str "checked_out" } JVal.null with
  | .ok b => b
  | .thrown _ b => b

/-- The slot aggregate produced by a concrete successful `createSlot`. -/
def c10AfterSlotCreate : SlotAggregate :=
  match (SlotAggregate.mkAgg "SL1").createSlot
      { name := .str "A-01", floor := .num 1, details := .null
        parkingSiteId := .str "P1", floorId := .str "F1" } with
  | .ok s => s
  | .thrown _ s => s

/-- Witness for C10: three concrete successful command executions, each
leaving the version exactly where it was. -/
theorem C10_witness :
    (c10AfterCreate.version = (ReservationAggregate.mkAgg "R1").version
      ∧ ∃ t, c10AfterCreate.uncommittedEvents
          = (ReservationAggregate.mkAgg "R1").uncommittedEvents ++ t)
  ∧ (c10AfterUpdate.version = c7Agg.version
      ∧ ∃ t, c10AfterUpdate.uncommittedEvents = c7Agg.uncommittedEvents ++ t)
  ∧ (c10AfterSlotCreate.version = (SlotAggregate.mkAgg "SL1").version
      ∧ ∃ t, c10AfterSlotCreate.uncommittedEvents
          = (SlotAggregate.mkAgg "SL1").uncommittedEvents ++ t) :=
  ⟨C10_commands_preserve_version.1 (ReservationAggregate.mkAgg "R1") c6Cmd
      (fun _ => none) JVal.null c10AfterCreate (by decide),
   C10_commands_preserve_version.2.1 c7Agg
      { reservationId := .str "R1", newStatus := .str "checked_out" }
      JVal.null c10AfterUpdate (by decide),
   C10_commands_preserve_version.2.2 (SlotAggregate.mkAgg "SL1")
      { name := .str "A-01", floor := .num 1, details := .null
        parkingSiteId := .str "P1", floorId := .str "F1" }
      c10AfterSlotCreate (by decide)⟩

/-- The inserted row's `id` column is the event's `reservationId`,
whatever the clock and date helpers are. -/
theorem reservationRow_id (toISO : String → String) (epochToISO : JVal → String)
    (now : JVal) (event : StoredEventData) :
    (reservationRow toISO epochToISO now event).id = event.reservationId := rfl

/-- Behaviour of one delivery: if the table already holds a row with
the event's reservation id the insert fails and the table is unchanged;
otherwise the new row is appended. -/
theorem deliver_spec (toISO : String → String) (epochToISO : JVal → String)
    (now : JVal) (t : List ReadModelRow) (e : StoredEventData) :
    deliverReservationCreated toISO epochToISO now t e
      = if t.any (fun r => decide (r.id = e.reservationId)) = true then t
        else t ++ [reservationRow toISO epochToISO now e] := by
  by_cases h : t.any (fun r => decide (r.id = e.reservationId)) = true
  · simp only [deliverReservationCreated, handleReservationCreated, insertRow,
      reservationRow_id, h, if_true]
  · simp [deliverReservationCreated, handleReservationCreated, insertRow,
      reservationRow_id, h]

/-- C2.  Projection idempotence: delivering the same
`ReservationCreatedEvent` twice to the projection's
`handleReservationCreated` against the same read-model store leaves the
store exactly as one delivery does (the duplicate insert fails on the
id key and writes nothing), and when the store starts with no row for
the event's reservation id it ends with exactly one such row. -/
theorem C2_projection_idempotent (toISO : String → String)
    (epochToISO : JVal → String) (n1 n2 : JVal)
    (t : List ReadModelRow) (e : StoredEventData) :
    deliverReservationCreated toISO epochToISO n2
        (deliverReservationCreated toISO epochToISO n1 t e) e
      = deliverReservationCreated toISO epochToISO n1 t e
    ∧ ((t.filter fun r => decide (r.id = e.reservationId)).length = 0 →
        ((deliverReservationCreated toISO epochToISO n1 t e).filter
            fun r => decide (r.id = e.reservationId)).length = 1) := by
  by_cases h : t.any (fun r => decide (r.id = e.reservationId)) = true
  · rw [deliver_spec toISO epochToISO n1 t e, if_pos h]
    constructor
    · rw [deliver_spec, if_pos h]
    · intro h0
      exfalso
      rw [List.any_eq_true] at h
      obtain ⟨r, hrt, hrid⟩ := h
      have hnil : t.filter (fun r => decide (r.id = e.reservationId)) = [] :=
        List.length_eq_zero.mp h0
      have : ¬ ((fun r => decide (r.id = e.reservationId)) r = true) :=
        List.filter_eq_nil_iff.mp hnil r hrt
      exact this hrid
  · rw [deliver_spec toISO epochToISO n1 t e, if_neg h]
    constructor
    · rw [deliver_spec, if_pos ?_]
      rw [List.any_append]
      simp [reservationRow_id]
    · intro h0
      have hnil : t.filter (fun r => decide (r.id = e.reservationId)) = [] :=
        List.length_eq_zero.mp h0
      rw [List.filter_append, hnil]
      simp [reservationRow_id]

/-- Concrete stored creation event used to instantiate
`C2_projection_idempotent`. -/
def c2Event : StoredEventData :=
  { StoredEventData.empty with
    reservationId := .str "R1", userId := .str "U1", slotId := .str "S1"
    status := .str "pending"
    startDateLocal := .str "2025-01-01", startTimeLocal := .str "08:00:00"
    endDateLocal := .str "2025-01-01", endTimeLocal := .str "09:00:00"
    timeZoneOffset := .str "+07:00", createdAt := .num 1735600000
    parkingSiteId := .str "P1", floorId := .str "F1" }

/-- Witness for C2: starting from an empty store, one delivery of the
concrete event leaves exactly one row for `R1`. -/
theorem C2_witness :
    ((deliverReservationCreated (fun s => s) (fun _ => "") JVal.null [] c2Event).filter
        fun r => decide (r.id = c2Event.reservationId)).length = 1 :=
  (C2_projection_idempotent (fun s => s) (fun _ => "") JVal.null JVal.null
    [] c2Event).2 rfl

end Fastpass
